import Mathlib

/-!
Verification of the GRD measurement-file parser (`grd_reader`).

The parser `read_grd` and the data model (`CurveData`, `GraphData`) are
embedded shallowly:

* text lines are lists of characters (`Str`);
* Python floats are modelled as exact rationals (`Rat`): every numeric
  token the format carries is a finite decimal, parsed exactly;
* the numpy matrix `CurveData.data` is modelled as a list of rows
  (`List (List Rat)`); `np.empty(0)` and `np.fromiter` of an empty row are
  both the empty list, a single accumulated row `r` is `[r]`
  (numpy stores it one-dimensional; the guard in the source only ever
  asks whether `shape[0]` is zero, which agrees with emptiness of the
  list model on all reachable states);
* fallible operations (indexing, `float`/`int` conversion, `np.vstack`
  shape checks) return `Option`; a `none` from the line-processing step
  models the parse raising.
-/

/-- Lines and strings of the program are modelled as lists of characters. -/
abbrev Str : Type := List Char

/-- Coerce a Lean string literal into the character-list model. -/
def strS (s : String) : Str := s.data

/-- The whitespace characters `str.split` / `str.strip` recognise
(ASCII fragment, which is all the GRD format uses). -/
def isWs (c : Char) : Bool :=
  c == ' ' || c == '\t' || c == '\n' || c == '\r' || c == '\x0b' || c == '\x0c'

/-- Is the first list a prefix of the second? -/
def isPre : Str → Str → Bool
  | [], _ => true
  | _ :: _, [] => false
  | a :: as, b :: bs => (a == b) && isPre as bs

/-- `line.startswith(p)`. -/
def startsWith (l p : Str) : Bool := isPre p l

/-- `s.strip()`: drop whitespace from both ends. -/
def pyStrip (s : Str) : Str :=
  ((s.dropWhile isWs).reverse.dropWhile isWs).reverse

/-- `s.replace(a, b)` for one-character patterns. -/
def chRepl (a b : Char) (s : Str) : Str := s.map (fun c => if c == a then b else c)

/-- `s.split(maxsplit=n)`: at most `n` splits on whitespace runs, leading
whitespace skipped; once the budget is exhausted the remainder (with its
leading whitespace stripped, trailing kept) is the final element. -/
def pySplitMax : Nat → Str → List Str
  | n, s =>
    match s.dropWhile isWs with
    | [] => []
    | c :: cs =>
      match n with
      | 0 => [c :: cs]
      | m + 1 =>
        ((c :: cs).takeWhile (fun d => !isWs d)) ::
          pySplitMax m ((c :: cs).dropWhile (fun d => !isWs d))

/-- `s.split()` with no limit: a budget of `s.length` splits never runs out. -/
def pySplit (s : Str) : List Str := pySplitMax s.length s

/-- `s.split(sep, maxsplit=1)` viewed as the pair around the first `sep`;
`none` when `sep` does not occur. -/
def splitSep1 (sep : Char) : Str → Option (Str × Str)
  | [] => none
  | c :: cs =>
    if c == sep then some ([], cs)
    else (splitSep1 sep cs).map (fun p => (c :: p.1, p.2))

/-- `s.split(sep)`: every field, empty fields kept; never returns `[]`. -/
def splitSepAll (sep : Char) : Str → List Str
  | [] => [[]]
  | c :: cs =>
    match splitSepAll sep cs with
    | [] => [[c]]
    | r :: rs => if c == sep then [] :: r :: rs else (c :: r) :: rs

/-- `s.split(sep, maxsplit=1)[-1]`: the text after the first `sep` when one
occurs, the whole string otherwise. -/
def afterSep1 (sep : Char) (s : Str) : Str :=
  match splitSep1 sep s with
  | some p => p.2
  | none => s

/-- Numeric value of a decimal digit. -/
def digVal (c : Char) : Nat := c.toNat - ('0').toNat

/-- Value of a digit string. -/
def digitsToNat (s : Str) : Nat := s.foldl (fun a c => a * 10 + digVal c) 0

/-- `int(s)`: optionally signed run of decimal digits, surrounding
whitespace allowed. -/
def pyInt (s : Str) : Option Int :=
  match pyStrip s with
  | '+' :: r =>
    if !r.isEmpty && r.all Char.isDigit then some (Int.ofNat (digitsToNat r)) else none
  | '-' :: r =>
    if !r.isEmpty && r.all Char.isDigit then some (-(Int.ofNat (digitsToNat r))) else none
  | r =>
    if !r.isEmpty && r.all Char.isDigit then some (Int.ofNat (digitsToNat r)) else none

/-- Optional exponent suffix of a Python float literal, applied to the
mantissa `m`. -/
def pyExp (m : Rat) : Str → Option Rat
  | [] => some m
  | c :: r =>
    if c == 'e' || c == 'E' then
      match r with
      | '+' :: d =>
        if !d.isEmpty && d.all Char.isDigit then some (m * 10 ^ digitsToNat d) else none
      | '-' :: d =>
        if !d.isEmpty && d.all Char.isDigit then some (m / 10 ^ digitsToNat d) else none
      | d =>
        if !d.isEmpty && d.all Char.isDigit then some (m * 10 ^ digitsToNat d) else none
    else none

/-- Unsigned decimal float body: digits, optional point and fraction,
optional exponent. -/
def pyDec (s : Str) : Option Rat :=
  let ip := s.takeWhile Char.isDigit
  let r1 := s.dropWhile Char.isDigit
  match r1 with
  | '.' :: r2 =>
    let fp := r2.takeWhile Char.isDigit
    let r3 := r2.dropWhile Char.isDigit
    if ip.isEmpty && fp.isEmpty then none
    else
      pyExp ((digitsToNat ip : Rat) + (digitsToNat fp : Rat) / ((10 : Rat) ^ fp.length)) r3
  | _ => if ip.isEmpty then none else pyExp ((digitsToNat ip : Rat)) r1

/-- `float(s)` on the finite decimal literals the GRD format carries,
valued in exact rationals. -/
def pyFloat (s : Str) : Option Rat :=
  match pyStrip s with
  | '+' :: r => pyDec r
  | '-' :: r => (pyDec r).map (fun q => -q)
  | r => pyDec r

/-- Decimal rendering of an integer, as Python's `format(n, "d")`. -/
def intRepr (n : Int) : Str :=
  if n < 0 then '-' :: Nat.toDigits 10 n.natAbs else Nat.toDigits 10 n.natAbs

/-- `map` over `Option`-valued function, failing when any element fails;
models a Python list comprehension that may raise. -/
def optMap {α β : Type} (f : α → Option β) : List α → Option (List β)
  | [] => some []
  | a :: as =>
    match f a with
    | none => none
    | some b =>
      match optMap f as with
      | none => none
      | some bs => some (b :: bs)

/-- One curve of a GRD file (`class CurveData`). -/
structure CurveData where
  curve_number : Int := 0
  start_date : Str := []
  key : Str := []
  duration : Rat := 0
  points : Int := 0
  data : List (List Rat) := []
deriving DecidableEq

/-- The parsed aggregate (`class GraphData`). -/
structure GraphData where
  names : List Str := []
  units : List Str := []
  curves : List CurveData := []
  sample_name : Str := []
  date : Str := []
  specific_info : Str := []
  user_info : Str := []
  comment : List Str := []
deriving DecidableEq

/-- The local variables of the `read_grd` loop. -/
structure ParseState where
  data : GraphData
  first_lines : Bool
  reading_comment : Bool
  reading_axes_description : Int
  reading_data : Bool
deriving DecidableEq

/-- State before the first line. -/
def initState : ParseState :=
  { data := {}, first_lines := true, reading_comment := false,
    reading_axes_description := -1, reading_data := false }

/-- Replace the most recent curve (`data.curve` is always the last one). -/
def setLast (gd : GraphData) (c : CurveData) : GraphData :=
  { gd with curves := gd.curves.dropLast ++ [c] }

/-- A curve-data row: split on whitespace, normalise comma decimals,
convert every token with `float` (lines 186 and 190-193 of the source). -/
def parseRow (line : Str) : Option (List Rat) :=
  optMap (fun t => pyFloat (chRepl ',' '.' t)) (pySplit line)

/-- Source lines 109-119: the `#START` sentinel ends the preamble, and while
`first_lines` holds the four labelled metadata lines are captured. -/
def stepPre (s : ParseState) (line : Str) : ParseState :=
  if startsWith line (strS ("#START")) then { s with first_lines := false }
  else if s.first_lines then
    if startsWith line (strS (" Sample name :")) then
      { s with data := { s.data with sample_name := afterSep1 ':' line } }
    else if startsWith line (strS (" Date        :")) then
      { s with data := { s.data with date := afterSep1 ':' line } }
    else if startsWith line (strS (" Specific inf:")) then
      { s with data := { s.data with specific_info := afterSep1 ':' line } }
    else if startsWith line (strS (" User info   :")) then
      { s with data := { s.data with user_info := afterSep1 ':' line } }
    else s
  else s

/-- Source lines 123-130: a line met while `reading_comment` holds — either
the end tag (clearing a `[" "]` comment) or one more appended comment line. -/
def commentArm (s : ParseState) (line : Str) : ParseState :=
  if startsWith line (strS ("#END comment")) then
    { s with
      reading_comment := false
      data := { s.data with
        comment := if s.data.comment = [strS (" ")] then [] else s.data.comment } }
  else
    { s with data := { s.data with comment := s.data.comment ++ [pyStrip line] } }

/-- Source lines 134-148: a line met inside the axis-description block. -/
def axisArm (s : ParseState) (line : Str) : Option ParseState :=
  if startsWith line (strS ("#END axis description")) then
    some { s with reading_axes_description := -1 }
  else if 0 < s.reading_axes_description then
    match (pySplitMax 10 line).getLast? with
    | none => none
    | some lastTok =>
      some { s with
             data := { s.data with
               names := s.data.names ++ [chRepl ' ' '_' (pyStrip lastTok)]
               units := s.data.units ++
                 [if 10 < (pySplit line).length then
                    pyStrip ((pySplitMax 10 line).getD ((pySplitMax 10 line).length - 2) [])
                  else []] }
             reading_axes_description := s.reading_axes_description + 1 }
  else
    some { s with reading_axes_description := s.reading_axes_description + 1 }

/-- Source lines 149-153: a `#START Curve description` line. -/
def curveDescArm (s : ParseState) (line : Str) : Option ParseState :=
  match (pySplit line).get? 3 with
  | none => none
  | some t =>
    match pyInt t with
    | none => none
    | some n =>
      some { s with
             data := { s.data with curves := s.data.curves ++ [{ curve_number := n }] }
             reading_data := false }

/-- Source lines 154-156: a `#START Date:` line. -/
def dateArm (s : ParseState) (line : Str) : Option ParseState :=
  match splitSep1 ':' line with
  | none => none
  | some p =>
    match s.data.curves.getLast? with
    | none => none
    | some c => some { s with data := setLast s.data { c with start_date := p.2 } }

/-- Source lines 157-162: a `#START Time:` line. -/
def timeArm (s : ParseState) (line : Str) : Option ParseState :=
  match (splitSepAll ':' line).get? 1 with
  | none => none
  | some seg =>
    match (pySplit seg).get? 1 with
    | none => none
    | some t1 =>
      match pyFloat (chRepl ',' '.' t1) with
      | none => none
      | some b =>
        match (pySplit seg).get? 0 with
        | none => none
        | some t0 =>
          match pyFloat (chRepl ',' '.' t0) with
          | none => none
          | some a =>
            match s.data.curves.getLast? with
            | none => none
            | some c => some { s with data := setLast s.data { c with duration := b - a } }

/-- Source lines 163-165: a `#START Curve Legend ` line. -/
def legendArm (s : ParseState) (line : Str) : Option ParseState :=
  match splitSep1 ':' line with
  | none => none
  | some p =>
    match s.data.curves.getLast? with
    | none => none
    | some c => some { s with data := setLast s.data { c with key := p.2 } }

/-- Source lines 166-170: the guard `data and data.curve.curve_number and
line.startswith(f"#START Curve {n:d}")`. -/
def pointsGuard (s : ParseState) (line : Str) : Bool :=
  match s.data.curves.getLast? with
  | none => false
  | some c => c.curve_number != 0 &&
      startsWith line (strS ("#START Curve ") ++ intRepr c.curve_number)

/-- Source lines 171-172: record the declared point count. -/
def pointsArm (s : ParseState) (line : Str) : Option ParseState :=
  match s.data.curves.getLast? with
  | none => none
  | some c =>
    match (splitSepAll '=' line).get? 1 with
    | none => none
    | some v =>
      match pyInt v with
      | none => none
      | some p => some { s with data := setLast s.data { c with points := p } }

/-- Source lines 176-194: a line met while `reading_data` holds — the
matching end tag, or one more numeric row stacked under the current
curve's data. -/
def dataArm (s : ParseState) (line : Str) : Option ParseState :=
  match s.data.curves.getLast? with
  | none => none
  | some c =>
    if c.curve_number != 0 &&
        startsWith line (strS ("#END Curve ") ++ intRepr c.curve_number ++ strS (" -")) then
      some { s with reading_data := false }
    else
      match parseRow line with
      | none => none
      | some row =>
        match c.data with
        | [] =>
          if row.isEmpty then some s
          else some { s with data := setLast s.data { c with data := [row] } }
        | r0 :: _ =>
          if row.length == r0.length then
            some { s with data := setLast s.data { c with data := c.data ++ [row] } }
          else none

/-- Source lines 120-194: comment block, axis-description block, curve tags
and curve-data rows, in the source's check order.  `none` models the parse
raising on this line. -/
def stepMain (s : ParseState) (line : Str) : Option ParseState :=
  if startsWith line (strS ("#START comment")) then
    some { s with reading_comment := true }
  else if s.reading_comment then
    some (commentArm s line)
  else if startsWith line (strS ("#START axis description")) then
    some { s with reading_axes_description := 0 }
  else if s.reading_axes_description ≠ -1 then
    axisArm s line
  else if startsWith line (strS ("#START Curve description")) then
    curveDescArm s line
  else if startsWith line (strS ("#START Date:")) then
    dateArm s line
  else if startsWith line (strS ("#START Time:")) then
    timeArm s line
  else if startsWith line (strS ("#START Curve Legend ")) then
    legendArm s line
  else if pointsGuard s line then
    pointsArm s line
  else if startsWith line (strS ("#START Curve Data")) then
    some { s with reading_data := true }
  else if s.reading_data then
    dataArm s line
  else
    some s

/-- One iteration of the `for line in lines` loop of `read_grd`. -/
def step (s : ParseState) (line : Str) : Option ParseState :=
  stepMain (stepPre s line) line

/-- The whole loop. -/
def runLines : ParseState → List Str → Option ParseState
  | s, [] => some s
  | s, l :: ls =>
    match step s l with
    | none => none
    | some s' => runLines s' ls

/-- `read_grd`, applied to the file's lines (`splitlines` of its text). -/
def read_grd (lines : List Str) : Option GraphData :=
  (runLines initState lines).map (fun s => s.data)

/-- `list.index(x)` restricted to its successful value (`none` models the
`ValueError`). -/
def pyIndexOf : List Str → Str → Option Nat
  | [], _ => none
  | a :: as, x => if a = x then some 0 else (pyIndexOf as x).map (fun i => i + 1)

/-- The linear scan of `GraphData.__getitem__`: first curve whose
`curve_number` matches (`none` models the `IndexError`). -/
def findCurve : List CurveData → Int → Option CurveData
  | [], _ => none
  | c :: cs, n => if c.curve_number = n then some c else findCurve cs n

/-- `CurveData.__getitem__`: the column `col` of the accumulated rows
(`data[..., col]`).  A curve with no accumulated rows holds `np.empty(0)`
(shape `(0,)`), and integer indexing into its size-0 axis raises
`IndexError` for every `col`, so the model returns `none` on empty data.
When exactly one row was accumulated numpy holds it one-dimensional and
returns the bare entry `data[col]`; the model returns the one-entry
column.  Otherwise the column is returned, `none` when `col` is out of
range of the rows (numpy `IndexError`). -/
def curveCol (c : CurveData) (col : Nat) : Option (List Rat) :=
  match c.data with
  | [] => none
  | _ :: _ => optMap (fun r => r.get? col) c.data

/-- `GraphData.__getitem__` for a `(curve_number, channel)` key. -/
def graphGetItem (gd : GraphData) (n : Int) (ch : Str) : Option (List Rat) :=
  match pyIndexOf gd.names ch with
  | none => none
  | some col =>
    match findCurve gd.curves n with
    | none => none
    | some c => curveCol c col

/-- The guard of the row-consuming branch inside the `reading_data` arm:
a current curve exists, and `line` is not that curve's end-of-data tag. -/
def dataRowGuard (s : ParseState) (line : Str) : Bool :=
  match s.data.curves.getLast? with
  | none => false
  | some c => !(c.curve_number != 0 &&
      startsWith line (strS ("#END Curve ") ++ intRepr c.curve_number ++ strS (" -")))

/-- The branch classification of `step`: `true` exactly when the source's
final `elif reading_data` arm (lines 176-194) consumes `line` as a numeric
curve-data row, i.e. no earlier tag check matches, `reading_data` holds,
a current curve exists, and `line` is not the matching end-of-data tag. -/
def rowLine (s : ParseState) (line : Str) : Bool :=
  !startsWith line (strS ("#START comment")) && !s.reading_comment &&
  !startsWith line (strS ("#START axis description")) &&
  (s.reading_axes_description == -1) &&
  !startsWith line (strS ("#START Curve description")) &&
  !startsWith line (strS ("#START Date:")) &&
  !startsWith line (strS ("#START Time:")) &&
  !startsWith line (strS ("#START Curve Legend ")) &&
  !pointsGuard s line &&
  !startsWith line (strS ("#START Curve Data")) && s.reading_data &&
  dataRowGuard s line

/-- A run of the parser in which every line consumed as a curve-data row
carries exactly `N` whitespace-separated tokens (the well-formedness premise
of the column-count invariant). -/
def goodTrace (N : Nat) : ParseState → List Str → Bool
  | _, [] => true
  | s, l :: ls =>
    (!rowLine s l || ((pySplit l).length == N)) &&
    (match step s l with
     | none => true
     | some s' => goodTrace N s' ls)

/-- The minimal end-to-end file of the spec: a preamble-free body, one
axis-description block whose data lines are `s Time` and `V Voltage`, one
curve numbered 1 with the two data rows `0.0 1,5` and `1.0 2,5`. -/
def c1File : List Str :=
  [strS ("#START axis description"), strS ("header"), strS ("s Time"),
   strS ("V Voltage"), strS ("#END axis description"),
   strS ("#START Curve description 1"), strS ("#START Curve Data"),
   strS ("0.0 1,5"), strS ("1.0 2,5"), strS ("#END Curve 1 -")]

/-- What `read_grd` actually produces on `c1File`. -/
def c1Result : GraphData :=
  { names := [strS ("Time"), strS ("Voltage")]
    units := [[], []]
    curves := [{ curve_number := 1, data := [[0, 3/2], [1, 5/2]] }]
    sample_name := []
    date := []
    specific_info := []
    user_info := []
    comment := [] }

/-- A file whose comment block holds exactly one line. -/
def c2File (mid : Str) : List Str :=
  [strS ("#START comment"), mid, strS ("#END comment")]

/-- A `GraphData` in which two curves share the same `curve_number`. -/
def gdDup : GraphData :=
  { names := [strS ("T")]
    curves := [{ curve_number := 5, data := [[1]] },
               { curve_number := 5, data := [[2]] }] }

/-- A file declaring one axis entry and one curve but no data rows. -/
def c6File : List Str :=
  [strS ("#START axis description"), strS ("header"), strS ("s Time"),
   strS ("#END axis description"), strS ("#START Curve description 1")]

/-- What `read_grd` produces on `c6File`: one curve with an empty data
matrix. -/
def c6Result : GraphData :=
  { names := [strS ("Time")]
    units := [[]]
    curves := [{ curve_number := 1 }] }

/-! ### Helper lemmas -/

theorem stepPre_data_curves (s : ParseState) (line : Str) :
    (stepPre s line).data.curves = s.data.curves := by
  unfold stepPre
  repeat' (first | rfl | split)

theorem stepPre_data_names (s : ParseState) (line : Str) :
    (stepPre s line).data.names = s.data.names := by
  unfold stepPre
  repeat' (first | rfl | split)

theorem stepPre_data_units (s : ParseState) (line : Str) :
    (stepPre s line).data.units = s.data.units := by
  unfold stepPre
  repeat' (first | rfl | split)

theorem stepPre_data_comment (s : ParseState) (line : Str) :
    (stepPre s line).data.comment = s.data.comment := by
  unfold stepPre
  repeat' (first | rfl | split)

theorem stepPre_reading_comment (s : ParseState) (line : Str) :
    (stepPre s line).reading_comment = s.reading_comment := by
  unfold stepPre
  repeat' (first | rfl | split)

theorem stepPre_axes (s : ParseState) (line : Str) :
    (stepPre s line).reading_axes_description = s.reading_axes_description := by
  unfold stepPre
  repeat' (first | rfl | split)

theorem stepPre_reading_data (s : ParseState) (line : Str) :
    (stepPre s line).reading_data = s.reading_data := by
  unfold stepPre
  repeat' (first | rfl | split)

/-! ### C8: determinism -/

/-- C8: parsing is deterministic — two parses of the same file content
yield structurally equal `GraphData` values, field by field. -/
theorem c8_deterministic (lines : List Str) (gd1 gd2 : GraphData)
    (h1 : read_grd lines = some gd1) (h2 : read_grd lines = some gd2) :
    gd1.names = gd2.names ∧ gd1.units = gd2.units ∧ gd1.curves = gd2.curves ∧
    gd1.sample_name = gd2.sample_name ∧ gd1.date = gd2.date ∧
    gd1.specific_info = gd2.specific_info ∧ gd1.user_info = gd2.user_info ∧
    gd1.comment = gd2.comment := by
  rw [h1] at h2
  injection h2 with h
  subst h
  exact ⟨rfl, rfl, rfl, rfl, rfl, rfl, rfl, rfl⟩

/-- Witness for C8 on the concrete minimal file. -/
theorem c8_deterministic_witness :
    c1Result.names = c1Result.names ∧ c1Result.units = c1Result.units ∧
    c1Result.curves = c1Result.curves ∧
    c1Result.sample_name = c1Result.sample_name ∧ c1Result.date = c1Result.date ∧
    c1Result.specific_info = c1Result.specific_info ∧
    c1Result.user_info = c1Result.user_info ∧
    c1Result.comment = c1Result.comment :=
  c8_deterministic c1File c1Result c1Result (by with_unfolding_all decide)
    (by with_unfolding_all decide)

/-! ### C1: the minimal end-to-end scenario -/

/-- C1, counterexample: on the spec's minimal file the parse succeeds but
the units are not `["s", "V"]` — an axis line records a unit only when it
has more than ten whitespace-separated tokens, and `s Time` has two. -/
theorem c1_counterexample :
    read_grd c1File ≠ none ∧
    (read_grd c1File).map GraphData.units ≠ some [strS ("s"), strS ("V")] := by
  constructor
  · decide
  · decide

/-- C1, amended: the minimal file parses to names `["Time", "Voltage"]`,
units `["", ""]`, and one curve numbered 1 whose data matrix is
`[[0.0, 1.5], [1.0, 2.5]]`. -/
theorem c1_amended : read_grd c1File = some c1Result := by
  with_unfolding_all decide

/-! ### C2: single-line comment blocks -/

/-- C2, counterexample: a comment block whose only line is a single space
yields `comment == [""]` (the line is stripped before being appended, so
the `[" "]` clearing branch never fires), not `comment == []`. -/
theorem c2_counterexample :
    (read_grd (c2File (strS (" ")))).map GraphData.comment = some [[]] ∧
    (read_grd (c2File (strS (" ")))).map GraphData.comment ≠ some [] := by
  constructor
  · decide
  · decide

/-! ### List helper lemmas -/

theorem dropWhile_head_false {p : Char → Bool} :
    ∀ (l : Str) (c : Char) (t : Str), l.dropWhile p = c :: t → p c = false
  | [], c, t, h => by simp [List.dropWhile] at h
  | a :: as, c, t, h => by
    simp only [List.dropWhile_cons] at h
    by_cases hpa : p a = true
    · rw [if_pos hpa] at h
      exact dropWhile_head_false as c t h
    · rw [if_neg hpa] at h
      injection h with h1 _
      subst h1
      cases hb : p a
      · rfl
      · exact absurd hb hpa

theorem pyStrip_ne_single_space (s : Str) : pyStrip s ≠ strS (" ") := by
  intro h
  rw [show strS (" ") = [' '] from rfl] at h
  unfold pyStrip at h
  have h2 : (s.dropWhile isWs).reverse.dropWhile isWs = [' '] := by
    have h3 := congrArg List.reverse h
    simpa using h3
  have h4 := dropWhile_head_false _ ' ' [] h2
  simp [isWs] at h4

theorem optMap_length {α β : Type} (f : α → Option β) :
    ∀ (l : List α) (l2 : List β), optMap f l = some l2 → l2.length = l.length
  | [], l2, h => by
    unfold optMap at h
    injection h with h
    subst h
    rfl
  | a :: as, l2, h => by
    unfold optMap at h
    cases hf : f a with
    | none => rw [hf] at h; cases h
    | some b =>
      rw [hf] at h
      cases ho : optMap f as with
      | none => rw [ho] at h; cases h
      | some bs =>
        rw [ho] at h
        injection h with h
        subst h
        simp [optMap_length f as bs ho]

theorem optMap_col (col : Nat) :
    ∀ (l : List (List Rat)), (∀ r ∈ l, col < r.length) →
      optMap (fun r => r.get? col) l = some (l.map (fun r => r.getD col 0))
  | [], _ => rfl
  | r :: rs, h => by
    have hr : col < r.length := h r (List.mem_cons_self r rs)
    have hrest := optMap_col col rs (fun r' hr' => h r' (List.mem_cons_of_mem r hr'))
    unfold optMap
    rw [hrest]
    rw [List.get?_eq_getElem?, List.getElem?_eq_getElem hr]
    simp [List.getD_eq_getElem?_getD, List.getElem?_eq_getElem hr]

theorem pyIndexOf_of_not_mem :
    ∀ (l : List Str) (x : Str), x ∉ l → pyIndexOf l x = none
  | [], x, _ => rfl
  | a :: as, x, h => by
    unfold pyIndexOf
    have hne : ¬ a = x := fun hax => h (by rw [← hax]; exact List.mem_cons_self a as)
    rw [if_neg hne]
    rw [pyIndexOf_of_not_mem as x (fun hm => h (List.mem_cons_of_mem a hm))]
    rfl

theorem pyIndexOf_first :
    ∀ (l : List Str) (x : Str) (col : Nat),
      l.get? col = some x → (∀ j, j < col → l.get? j ≠ some x) →
      pyIndexOf l x = some col
  | [], x, col, h, _ => by simp at h
  | a :: as, x, col, h, hf => by
    unfold pyIndexOf
    by_cases hax : a = x
    · subst hax
      cases col with
      | zero => simp
      | succ k => exact absurd (by simp) (hf 0 (Nat.succ_pos k))
    · rw [if_neg hax]
      cases col with
      | zero =>
        exfalso
        apply hax
        simpa using h
      | succ k =>
        have h' : as.get? k = some x := by simpa using h
        have hf' : ∀ j, j < k → as.get? j ≠ some x := by
          intro j hj hcontra
          exact hf (j + 1) (by omega) (by simpa using hcontra)
        rw [pyIndexOf_first as x k h' hf']
        rfl

theorem findCurve_of_forall_ne :
    ∀ (cs : List CurveData) (n : Int), (∀ c ∈ cs, c.curve_number ≠ n) →
      findCurve cs n = none
  | [], _, _ => rfl
  | c :: cs, n, h => by
    unfold findCurve
    rw [if_neg (h c (List.mem_cons_self c cs))]
    exact findCurve_of_forall_ne cs n (fun c' hm => h c' (List.mem_cons_of_mem c hm))

theorem findCurve_append :
    ∀ (pre : List CurveData) (c : CurveData) (post : List CurveData) (n : Int),
      (∀ c' ∈ pre, c'.curve_number ≠ n) → c.curve_number = n →
      findCurve (pre ++ c :: post) n = some c
  | [], c, post, n, _, hc => by
    unfold findCurve
    simp [if_pos hc]
  | p :: pre, c, post, n, hpre, hc => by
    rw [List.cons_append]
    unfold findCurve
    rw [if_neg (hpre p (List.mem_cons_self p pre))]
    exact findCurve_append pre c post n
      (fun c' hm => hpre c' (List.mem_cons_of_mem p hm)) hc

/-! ### C6: channel-data lookup -/

/-- C6, counterexample: on a parsed file whose only curve (numbered 1) has
no data rows, the channel `Time` occurs in `names` and a curve with number
1 exists, yet the lookup fails — `np.empty(0)[..., col]` raises
`IndexError` — instead of returning the (empty) column, and the failure is
not one of the claim's NotFound conditions. -/
theorem c6_counterexample :
    read_grd c6File = some c6Result ∧
    c6Result.names.get? 0 = some (strS ("Time")) ∧
    c6Result.curves = [{ curve_number := 1 }] ∧
    graphGetItem c6Result 1 (strS ("Time")) = none := by
  refine ⟨?_, ?_, ?_, ?_⟩ <;> with_unfolding_all decide

/-- C6, amended: looking up `(curve_number, channel)` returns exactly the
column of the (first) matching curve's data matrix at the channel's first
position in `names`, row order preserved, provided that curve's data
matrix is non-empty; it fails when the channel name is absent from `names`
or no curve carries that `curve_number` (NotFound), and it also fails —
with `IndexError`, not by returning an empty column — when the matching
curve's data matrix is empty. -/
theorem c6_channel_lookup (gd : GraphData) (n : Int) (ch : Str) :
    (∀ (col : Nat) (pre : List CurveData) (c : CurveData) (post : List CurveData),
        gd.names.get? col = some ch →
        (∀ j, j < col → gd.names.get? j ≠ some ch) →
        gd.curves = pre ++ c :: post →
        (∀ c' ∈ pre, c'.curve_number ≠ n) →
        c.curve_number = n →
        c.data ≠ [] →
        (∀ r ∈ c.data, col < r.length) →
        graphGetItem gd n ch = some (c.data.map (fun r => r.getD col 0))) ∧
    (∀ (col : Nat) (pre : List CurveData) (c : CurveData) (post : List CurveData),
        gd.names.get? col = some ch →
        (∀ j, j < col → gd.names.get? j ≠ some ch) →
        gd.curves = pre ++ c :: post →
        (∀ c' ∈ pre, c'.curve_number ≠ n) →
        c.curve_number = n →
        c.data = [] →
        graphGetItem gd n ch = none) ∧
    (ch ∉ gd.names → graphGetItem gd n ch = none) ∧
    ((∀ c ∈ gd.curves, c.curve_number ≠ n) → graphGetItem gd n ch = none) := by
  refine ⟨?_, ?_, ?_, ?_⟩
  · intro col pre c post hcol hfirst hcurves hpre hcn hne hbound
    unfold graphGetItem
    rw [pyIndexOf_first gd.names ch col hcol hfirst]
    rw [hcurves, findCurve_append pre c post n hpre hcn]
    show curveCol c col = some (c.data.map (fun r => r.getD col 0))
    unfold curveCol
    cases hcd : c.data with
    | nil => exact absurd hcd hne
    | cons r rs =>
      exact optMap_col col (r :: rs) (fun x hx => hbound x (by rw [hcd]; exact hx))
  · intro col pre c post hcol hfirst hcurves hpre hcn hdata
    unfold graphGetItem
    rw [pyIndexOf_first gd.names ch col hcol hfirst]
    rw [hcurves, findCurve_append pre c post n hpre hcn]
    show curveCol c col = none
    unfold curveCol
    rw [hdata]
  · intro hnm
    unfold graphGetItem
    rw [pyIndexOf_of_not_mem gd.names ch hnm]
  · intro hno
    unfold graphGetItem
    cases hio : pyIndexOf gd.names ch with
    | none => rfl
    | some col => rw [findCurve_of_forall_ne gd.curves n hno]

/-- Witness for C6 (amended): the non-empty lookup succeeds on the parsed
minimal file; the empty-data lookup and the two NotFound cases fail. -/
theorem c6_channel_lookup_witness :
    graphGetItem c1Result 1 (strS ("Voltage")) = some [3/2, 5/2] ∧
    graphGetItem c6Result 1 (strS ("Time")) = none ∧
    graphGetItem c1Result 1 (strS ("Missing")) = none ∧
    graphGetItem c1Result 2 (strS ("Voltage")) = none := by
  refine ⟨?_, ?_, ?_, ?_⟩
  · exact ((c6_channel_lookup c1Result 1 (strS ("Voltage"))).1 1 []
      { curve_number := 1, data := [[0, 3/2], [1, 5/2]] } []
      (by decide) (by decide) rfl (by simp) rfl (by simp) (by decide)).trans rfl
  · exact (c6_channel_lookup c6Result 1 (strS ("Time"))).2.1 0 []
      { curve_number := 1 } [] (by decide) (by decide) rfl (by simp) rfl rfl
  · exact (c6_channel_lookup c1Result 1 (strS ("Missing"))).2.2.1 (by decide)
  · exact (c6_channel_lookup c1Result 2 (strS ("Voltage"))).2.2.2 (by decide)

/-! ### C7: duplicate curve numbers, first match wins -/

/-- C7: when several curves share a `curve_number`, the lookup scan returns
the first matching curve in `curves` order and duplicates are no error:
channel lookup reads that first curve's column (the curve's data being
non-empty and its rows wide enough). -/
theorem c7_first_match (gd : GraphData) (n : Int) (pre : List CurveData)
    (c : CurveData) (post : List CurveData)
    (hcurves : gd.curves = pre ++ c :: post)
    (hpre : ∀ c' ∈ pre, c'.curve_number ≠ n)
    (hcn : c.curve_number = n) :
    findCurve gd.curves n = some c ∧
    (∀ (ch : Str) (col : Nat), pyIndexOf gd.names ch = some col →
      c.data ≠ [] →
      (∀ r ∈ c.data, col < r.length) →
      graphGetItem gd n ch = some (c.data.map (fun r => r.getD col 0))) := by
  constructor
  · rw [hcurves]
    exact findCurve_append pre c post n hpre hcn
  · intro ch col hcol hne hbound
    unfold graphGetItem
    rw [hcol, hcurves, findCurve_append pre c post n hpre hcn]
    show curveCol c col = some (c.data.map (fun r => r.getD col 0))
    unfold curveCol
    cases hcd : c.data with
    | nil => exact absurd hcd hne
    | cons r rs =>
      exact optMap_col col (r :: rs) (fun x hx => hbound x (by rw [hcd]; exact hx))

/-- Witness for C7: two curves numbered 5; the lookup returns the first. -/
theorem c7_first_match_witness :
    findCurve gdDup.curves 5 = some { curve_number := 5, data := [[1]] } ∧
    graphGetItem gdDup 5 (strS ("T")) = some [1] := by
  have h := c7_first_match gdDup 5 [] { curve_number := 5, data := [[1]] }
    [{ curve_number := 5, data := [[2]] }] rfl (by simp) rfl
  exact ⟨h.1, (h.2 (strS ("T")) 0 rfl (by simp) (by decide)).trans rfl⟩

/-! ### C2 (amended): single-line comment blocks in general -/

/-- C2, amended: a comment block whose single line is `mid` (itself not a
comment boundary tag) yields `comment == [mid.strip()]`; in particular the
single-space line gives `[""]`, never `[]`. -/
theorem c2_amended (mid : Str)
    (h1 : startsWith mid (strS ("#START comment")) = false)
    (h2 : startsWith mid (strS ("#END comment")) = false) :
    (read_grd (c2File mid)).map GraphData.comment = some [pyStrip mid] := by
  have hs1 : step initState (strS ("#START comment")) = some
      { data := {}, first_lines := false, reading_comment := true,
        reading_axes_description := -1, reading_data := false } := rfl
  have hpre2 : stepPre
      { data := {}, first_lines := false, reading_comment := true,
        reading_axes_description := -1, reading_data := false } mid =
      { data := {}, first_lines := false, reading_comment := true,
        reading_axes_description := -1, reading_data := false } := by
    unfold stepPre
    cases hb : startsWith mid (strS ("#START")) <;> simp [hb]
  have hs2 : step
      { data := {}, first_lines := false, reading_comment := true,
        reading_axes_description := -1, reading_data := false } mid = some
      { data := { comment := [pyStrip mid] }, first_lines := false,
        reading_comment := true, reading_axes_description := -1,
        reading_data := false } := by
    unfold step
    rw [hpre2]
    unfold stepMain commentArm
    rw [h1, h2]
    simp
  have hs3 : step
      { data := { comment := [pyStrip mid] }, first_lines := false,
        reading_comment := true, reading_axes_description := -1,
        reading_data := false } (strS ("#END comment")) = some
      { data := { comment := [pyStrip mid] }, first_lines := false,
        reading_comment := false, reading_axes_description := -1,
        reading_data := false } := by
    unfold step
    have hpre3 : stepPre
        { data := { comment := [pyStrip mid] }, first_lines := false,
          reading_comment := true, reading_axes_description := -1,
          reading_data := false } (strS ("#END comment")) =
        { data := { comment := [pyStrip mid] }, first_lines := false,
          reading_comment := true, reading_axes_description := -1,
          reading_data := false } := by
      unfold stepPre
      rw [show startsWith (strS ("#END comment")) (strS ("#START")) = false from rfl]
      simp
    rw [hpre3]
    unfold stepMain commentArm
    have hne : ¬ ([pyStrip mid] = [strS (" ")]) :=
      fun hcontra => pyStrip_ne_single_space mid (by simpa using hcontra)
    simp only [show startsWith (strS ("#END comment")) (strS ("#START comment")) = false from rfl,
      show startsWith (strS ("#END comment")) (strS ("#END comment")) = true from rfl,
      Bool.false_eq_true, if_false, if_true]
    rw [if_neg hne]
  unfold read_grd c2File
  simp only [runLines, hs1, hs2, hs3]
  rfl

/-- Witness for C2 (amended) at a concrete one-line comment. -/
theorem c2_amended_witness :
    startsWith (strS ("hello")) (strS ("#START comment")) = false ∧
    startsWith (strS ("hello")) (strS ("#END comment")) = false ∧
    (read_grd (c2File (strS ("hello")))).map GraphData.comment =
      some [pyStrip (strS ("hello"))] :=
  ⟨by decide, by decide, c2_amended (strS ("hello")) (by decide) (by decide)⟩

/-! ### Stepping lemmas for the state machine -/

theorem startsWith_exists_append :
    ∀ (p l : Str), startsWith l p = true → ∃ t, l = p ++ t
  | [], l, _ => ⟨l, rfl⟩
  | a :: as, [], h => by simp [startsWith, isPre] at h
  | a :: as, b :: bs, h => by
    unfold startsWith isPre at h
    rw [Bool.and_eq_true] at h
    obtain ⟨h1, h2⟩ := h
    obtain ⟨t, ht⟩ := startsWith_exists_append as bs h2
    exact ⟨t, by rw [List.cons_append, ← ht, eq_of_beq h1]⟩

theorem runLines_append :
    ∀ (xs : List Str) (s : ParseState) (ys : List Str),
      runLines s (xs ++ ys) = (runLines s xs).bind (fun t => runLines t ys)
  | [], s, ys => rfl
  | x :: xs, s, ys => by
    rw [List.cons_append]
    cases hstep : step s x with
    | none => simp [runLines, hstep]
    | some s' => simp [runLines, hstep, runLines_append xs s' ys]

theorem stepPre_of_not_first (s : ParseState) (line : Str)
    (h : s.first_lines = false) : stepPre s line = s := by
  obtain ⟨d, fl, rc, ra, rd⟩ := s
  simp only at h
  subst h
  unfold stepPre
  cases hb : startsWith line (strS ("#START")) <;> simp [hb]

theorem commentArm_meta (s : ParseState) (line : Str) :
    (commentArm s line).first_lines = s.first_lines ∧
    (commentArm s line).data.sample_name = s.data.sample_name ∧
    (commentArm s line).data.date = s.data.date ∧
    (commentArm s line).data.specific_info = s.data.specific_info ∧
    (commentArm s line).data.user_info = s.data.user_info := by
  unfold commentArm
  split <;> exact ⟨rfl, rfl, rfl, rfl, rfl⟩

theorem axisArm_meta (s : ParseState) (line : Str) (s' : ParseState)
    (h : axisArm s line = some s') :
    s'.first_lines = s.first_lines ∧
    s'.data.sample_name = s.data.sample_name ∧ s'.data.date = s.data.date ∧
    s'.data.specific_info = s.data.specific_info ∧
    s'.data.user_info = s.data.user_info := by
  unfold axisArm at h
  repeat' split at h
  all_goals first
    | (injection h with h; subst h; exact ⟨rfl, rfl, rfl, rfl, rfl⟩)
    | cases h

theorem curveDescArm_meta (s : ParseState) (line : Str) (s' : ParseState)
    (h : curveDescArm s line = some s') :
    s'.first_lines = s.first_lines ∧
    s'.data.sample_name = s.data.sample_name ∧ s'.data.date = s.data.date ∧
    s'.data.specific_info = s.data.specific_info ∧
    s'.data.user_info = s.data.user_info := by
  unfold curveDescArm at h
  repeat' split at h
  all_goals first
    | (injection h with h; subst h; exact ⟨rfl, rfl, rfl, rfl, rfl⟩)
    | cases h

theorem dateArm_meta (s : ParseState) (line : Str) (s' : ParseState)
    (h : dateArm s line = some s') :
    s'.first_lines = s.first_lines ∧
    s'.data.sample_name = s.data.sample_name ∧ s'.data.date = s.data.date ∧
    s'.data.specific_info = s.data.specific_info ∧
    s'.data.user_info = s.data.user_info := by
  unfold dateArm at h
  repeat' split at h
  all_goals first
    | (injection h with h; subst h; exact ⟨rfl, rfl, rfl, rfl, rfl⟩)
    | cases h

theorem timeArm_meta (s : ParseState) (line : Str) (s' : ParseState)
    (h : timeArm s line = some s') :
    s'.first_lines = s.first_lines ∧
    s'.data.sample_name = s.data.sample_name ∧ s'.data.date = s.data.date ∧
    s'.data.specific_info = s.data.specific_info ∧
    s'.data.user_info = s.data.user_info := by
  unfold timeArm at h
  repeat' split at h
  all_goals first
    | (injection h with h; subst h; exact ⟨rfl, rfl, rfl, rfl, rfl⟩)
    | cases h

theorem legendArm_meta (s : ParseState) (line : Str) (s' : ParseState)
    (h : legendArm s line = some s') :
    s'.first_lines = s.first_lines ∧
    s'.data.sample_name = s.data.sample_name ∧ s'.data.date = s.data.date ∧
    s'.data.specific_info = s.data.specific_info ∧
    s'.data.user_info = s.data.user_info := by
  unfold legendArm at h
  repeat' split at h
  all_goals first
    | (injection h with h; subst h; exact ⟨rfl, rfl, rfl, rfl, rfl⟩)
    | cases h

theorem pointsArm_meta (s : ParseState) (line : Str) (s' : ParseState)
    (h : pointsArm s line = some s') :
    s'.first_lines = s.first_lines ∧
    s'.data.sample_name = s.data.sample_name ∧ s'.data.date = s.data.date ∧
    s'.data.specific_info = s.data.specific_info ∧
    s'.data.user_info = s.data.user_info := by
  unfold pointsArm at h
  repeat' split at h
  all_goals first
    | (injection h with h; subst h; exact ⟨rfl, rfl, rfl, rfl, rfl⟩)
    | cases h

theorem dataArm_meta (s : ParseState) (line : Str) (s' : ParseState)
    (h : dataArm s line = some s') :
    s'.first_lines = s.first_lines ∧
    s'.data.sample_name = s.data.sample_name ∧ s'.data.date = s.data.date ∧
    s'.data.specific_info = s.data.specific_info ∧
    s'.data.user_info = s.data.user_info := by
  unfold dataArm at h
  repeat' split at h
  all_goals first
    | (injection h with h; subst h; exact ⟨rfl, rfl, rfl, rfl, rfl⟩)
    | cases h

set_option maxHeartbeats 1000000 in
theorem stepMain_meta (s : ParseState) (line : Str) (s' : ParseState)
    (h : stepMain s line = some s') :
    s'.first_lines = s.first_lines ∧
    s'.data.sample_name = s.data.sample_name ∧
    s'.data.date = s.data.date ∧
    s'.data.specific_info = s.data.specific_info ∧
    s'.data.user_info = s.data.user_info := by
  unfold stepMain at h
  repeat' split at h
  all_goals first
    | (injection h with h; subst h; exact ⟨rfl, rfl, rfl, rfl, rfl⟩)
    | (injection h with h; subst h; exact commentArm_meta s line)
    | cases h
    | exact axisArm_meta s line s' h
    | exact curveDescArm_meta s line s' h
    | exact dateArm_meta s line s' h
    | exact timeArm_meta s line s' h
    | exact legendArm_meta s line s' h
    | exact pointsArm_meta s line s' h
    | exact dataArm_meta s line s' h

theorem step_after_preamble (s : ParseState) (line : Str) (s' : ParseState)
    (hfl : s.first_lines = false) (h : step s line = some s') :
    s'.first_lines = false ∧
    s'.data.sample_name = s.data.sample_name ∧ s'.data.date = s.data.date ∧
    s'.data.specific_info = s.data.specific_info ∧
    s'.data.user_info = s.data.user_info := by
  unfold step at h
  rw [stepPre_of_not_first s line hfl] at h
  have hm := stepMain_meta s line s' h
  exact ⟨hm.1.trans hfl, hm.2.1, hm.2.2.1, hm.2.2.2.1, hm.2.2.2.2⟩

theorem runLines_after_preamble :
    ∀ (ls : List Str) (s s' : ParseState),
      s.first_lines = false → runLines s ls = some s' →
      s'.first_lines = false ∧
      s'.data.sample_name = s.data.sample_name ∧ s'.data.date = s.data.date ∧
      s'.data.specific_info = s.data.specific_info ∧
      s'.data.user_info = s.data.user_info
  | [], s, s', hfl, h => by
    unfold runLines at h
    injection h with h
    subst h
    exact ⟨hfl, rfl, rfl, rfl, rfl⟩
  | l :: ls, s, s', hfl, h => by
    unfold runLines at h
    cases hstep : step s l with
    | none => rw [hstep] at h; cases h
    | some smid =>
      rw [hstep] at h
      have h1 := step_after_preamble s l smid hfl hstep
      have h2 := runLines_after_preamble ls smid s' h1.1 h
      exact ⟨h2.1, h2.2.1.trans h1.2.1, h2.2.2.1.trans h1.2.2.1,
        h2.2.2.2.1.trans h1.2.2.2.1, h2.2.2.2.2.trans h1.2.2.2.2⟩

theorem step_start_clears_first (s : ParseState) (line : Str) (s' : ParseState)
    (hl : startsWith line (strS ("#START")) = true)
    (h : step s line = some s') : s'.first_lines = false := by
  unfold step at h
  have hpre : (stepPre s line).first_lines = false := by
    unfold stepPre
    simp [hl]
  exact (stepMain_meta _ line s' h).1.trans hpre

/-! ### C9: any `#START` line permanently ends preamble recognition -/

/-- C9: once any line starting with `#START` has been processed, none of the
four preamble metadata fields changes for the rest of the file — the state
reached just after that line already carries their final values. -/
theorem c9_start_ends_preamble (pre post : List Str) (l : Str)
    (smid : ParseState) (gd : GraphData)
    (hl : startsWith l (strS ("#START")) = true)
    (hmid : runLines initState (pre ++ [l]) = some smid)
    (hfull : read_grd (pre ++ l :: post) = some gd) :
    gd.sample_name = smid.data.sample_name ∧ gd.date = smid.data.date ∧
    gd.specific_info = smid.data.specific_info ∧
    gd.user_info = smid.data.user_info := by
  have hflmid : smid.first_lines = false := by
    rw [runLines_append] at hmid
    cases hrunpre : runLines initState pre with
    | none => rw [hrunpre] at hmid; cases hmid
    | some t =>
      rw [hrunpre] at hmid
      simp only [Option.some_bind] at hmid
      unfold runLines at hmid
      cases hstep : step t l with
      | none => rw [hstep] at hmid; cases hmid
      | some u =>
        rw [hstep] at hmid
        unfold runLines at hmid
        injection hmid with hmid
        subst hmid
        exact step_start_clears_first t l _ hl hstep
  unfold read_grd at hfull
  have hsplit : pre ++ l :: post = (pre ++ [l]) ++ post := by simp
  rw [hsplit, runLines_append, hmid] at hfull
  simp only [Option.some_bind] at hfull
  cases hrun : runLines smid post with
  | none => rw [hrun] at hfull; cases hfull
  | some sfin =>
    rw [hrun] at hfull
    injection hfull with hfull
    subst hfull
    have h2 := runLines_after_preamble post smid sfin hflmid hrun
    exact ⟨h2.2.1, h2.2.2.1, h2.2.2.2.1, h2.2.2.2.2⟩

/-- Witness for C9: the bare `#START` sentinel followed by a labelled
metadata line that is then ignored. -/
theorem c9_start_ends_preamble_witness :
    ({} : GraphData).sample_name =
      ({ data := {}, first_lines := false, reading_comment := false,
         reading_axes_description := -1,
         reading_data := false } : ParseState).data.sample_name ∧
    ({} : GraphData).date =
      ({ data := {}, first_lines := false, reading_comment := false,
         reading_axes_description := -1,
         reading_data := false } : ParseState).data.date ∧
    ({} : GraphData).specific_info =
      ({ data := {}, first_lines := false, reading_comment := false,
         reading_axes_description := -1,
         reading_data := false } : ParseState).data.specific_info ∧
    ({} : GraphData).user_info =
      ({ data := {}, first_lines := false, reading_comment := false,
         reading_axes_description := -1,
         reading_data := false } : ParseState).data.user_info :=
  c9_start_ends_preamble [] [strS (" Sample name :X")] (strS ("#START"))
    { data := {}, first_lines := false, reading_comment := false,
      reading_axes_description := -1, reading_data := false }
    {} (by decide) (by decide) (by decide)

/-! ### C10: curve tags before any curve abort the parse -/

theorem dateArm_none_of_no_curves (s : ParseState) (line : Str)
    (hcur : s.data.curves = []) : dateArm s line = none := by
  unfold dateArm
  simp only [hcur]
  repeat' split
  all_goals simp_all

theorem timeArm_none_of_no_curves (s : ParseState) (line : Str)
    (hcur : s.data.curves = []) : timeArm s line = none := by
  unfold timeArm
  simp only [hcur]
  repeat' split
  all_goals simp_all

theorem legendArm_none_of_no_curves (s : ParseState) (line : Str)
    (hcur : s.data.curves = []) : legendArm s line = none := by
  unfold legendArm
  simp only [hcur]
  repeat' split
  all_goals simp_all

theorem step_orphan_tag_none (s : ParseState) (l : Str)
    (hcur : s.data.curves = [])
    (hcom : s.reading_comment = false)
    (hax : s.reading_axes_description = -1)
    (hl : startsWith l (strS ("#START Date:")) = true ∨
          startsWith l (strS ("#START Time:")) = true ∨
          startsWith l (strS ("#START Curve Legend ")) = true) :
    step s l = none := by
  rcases hl with hA | hB | hC
  · obtain ⟨t, rfl⟩ := startsWith_exists_append _ _ hA
    have hcur1 : (stepPre s (strS ("#START Date:") ++ t)).data.curves = [] :=
      (stepPre_data_curves _ _).trans hcur
    have hcom1 : (stepPre s (strS ("#START Date:") ++ t)).reading_comment = false :=
      (stepPre_reading_comment _ _).trans hcom
    have hax1 : (stepPre s (strS ("#START Date:") ++ t)).reading_axes_description = -1 :=
      (stepPre_axes _ _).trans hax
    unfold step stepMain
    simp [show startsWith (strS ("#START Date:") ++ t) (strS ("#START comment")) = false from rfl,
      show startsWith (strS ("#START Date:") ++ t) (strS ("#START axis description")) = false from
        rfl,
      show startsWith (strS ("#START Date:") ++ t) (strS ("#START Curve description")) = false from
        rfl,
      show startsWith (strS ("#START Date:") ++ t) (strS ("#START Date:")) = true from rfl,
      hcom1, hax1, dateArm_none_of_no_curves _ _ hcur1]
  · obtain ⟨t, rfl⟩ := startsWith_exists_append _ _ hB
    have hcur1 : (stepPre s (strS ("#START Time:") ++ t)).data.curves = [] :=
      (stepPre_data_curves _ _).trans hcur
    have hcom1 : (stepPre s (strS ("#START Time:") ++ t)).reading_comment = false :=
      (stepPre_reading_comment _ _).trans hcom
    have hax1 : (stepPre s (strS ("#START Time:") ++ t)).reading_axes_description = -1 :=
      (stepPre_axes _ _).trans hax
    unfold step stepMain
    simp [show startsWith (strS ("#START Time:") ++ t) (strS ("#START comment")) = false from
        rfl,
      show startsWith (strS ("#START Time:") ++ t) (strS ("#START axis description")) = false from
        rfl,
      show startsWith (strS ("#START Time:") ++ t) (strS ("#START Curve description")) = false from
        rfl,
      show startsWith (strS ("#START Time:") ++ t) (strS ("#START Date:")) = false from rfl,
      show startsWith (strS ("#START Time:") ++ t) (strS ("#START Time:")) = true from rfl,
      hcom1, hax1, timeArm_none_of_no_curves _ _ hcur1]
  · obtain ⟨t, rfl⟩ := startsWith_exists_append _ _ hC
    have hcur1 : (stepPre s (strS ("#START Curve Legend ") ++ t)).data.curves = [] :=
      (stepPre_data_curves _ _).trans hcur
    have hcom1 : (stepPre s (strS ("#START Curve Legend ") ++ t)).reading_comment = false :=
      (stepPre_reading_comment _ _).trans hcom
    have hax1 :
        (stepPre s (strS ("#START Curve Legend ") ++ t)).reading_axes_description = -1 :=
      (stepPre_axes _ _).trans hax
    unfold step stepMain
    simp [show startsWith (strS ("#START Curve Legend ") ++ t)
        (strS ("#START comment")) = false from rfl,
      show startsWith (strS ("#START Curve Legend ") ++ t)
        (strS ("#START axis description")) = false from rfl,
      show startsWith (strS ("#START Curve Legend ") ++ t)
        (strS ("#START Curve description")) = false from rfl,
      show startsWith (strS ("#START Curve Legend ") ++ t) (strS ("#START Date:")) = false from
        rfl,
      show startsWith (strS ("#START Curve Legend ") ++ t) (strS ("#START Time:")) = false from
        rfl,
      show startsWith (strS ("#START Curve Legend ") ++ t)
        (strS ("#START Curve Legend ")) = true from rfl,
      hcom1, hax1, legendArm_none_of_no_curves _ _ hcur1]

/-- C10: a curve-date, curve-time, or curve-legend tag met while no curve
exists yet (and no comment or axis block is open) aborts the whole parse. -/
theorem c10_orphan_curve_tag_fails (pre post : List Str) (l : Str)
    (smid : ParseState)
    (hmid : runLines initState pre = some smid)
    (hcur : smid.data.curves = [])
    (hcom : smid.reading_comment = false)
    (hax : smid.reading_axes_description = -1)
    (hl : startsWith l (strS ("#START Date:")) = true ∨
          startsWith l (strS ("#START Time:")) = true ∨
          startsWith l (strS ("#START Curve Legend ")) = true) :
    read_grd (pre ++ l :: post) = none := by
  unfold read_grd
  rw [runLines_append, hmid]
  simp only [Option.some_bind]
  have hstep := step_orphan_tag_none smid l hcur hcom hax hl
  simp [runLines, hstep]

/-- Witness for C10: a file whose first line is an orphan curve-date tag. -/
theorem c10_orphan_curve_tag_fails_witness :
    read_grd ([] ++ strS ("#START Date: 2020") :: []) = none :=
  c10_orphan_curve_tag_fails [] [] (strS ("#START Date: 2020")) initState rfl
    (by decide) (by decide) (by decide) (Or.inl (by decide))

/-! ### C4: axis-description lines -/

/-- C4: inside the axis-description block, the header line (index 0) is
skipped, and every later line appends one name (last token of the at-most-11
split, stripped, spaces replaced with underscores) and one unit (the
second-to-last token when the line has more than ten whitespace-separated
tokens, empty otherwise). -/
theorem c4_axis_block (s : ParseState) (line : Str)
    (hc : s.reading_comment = false)
    (h1 : startsWith line (strS ("#START comment")) = false)
    (h2 : startsWith line (strS ("#START axis description")) = false)
    (h3 : startsWith line (strS ("#END axis description")) = false) :
    (s.reading_axes_description = 0 →
      (step s line).map (fun t => (t.data.names, t.data.units, t.reading_axes_description)) =
        some (s.data.names, s.data.units, 1)) ∧
    (∀ lastTok, 0 < s.reading_axes_description →
      (pySplitMax 10 line).getLast? = some lastTok →
      (step s line).map (fun t => (t.data.names, t.data.units, t.reading_axes_description)) =
        some (s.data.names ++ [chRepl ' ' '_' (pyStrip lastTok)],
              s.data.units ++
                [if 10 < (pySplit line).length then
                   pyStrip ((pySplitMax 10 line).getD ((pySplitMax 10 line).length - 2) [])
                 else []],
              s.reading_axes_description + 1)) := by
  have hpc : (stepPre s line).reading_comment = false :=
    (stepPre_reading_comment s line).trans hc
  have hpa : (stepPre s line).reading_axes_description = s.reading_axes_description :=
    stepPre_axes s line
  have hpn : (stepPre s line).data.names = s.data.names := stepPre_data_names s line
  have hpu : (stepPre s line).data.units = s.data.units := stepPre_data_units s line
  constructor
  · intro h0
    unfold step stepMain axisArm
    simp [h1, h2, h3, hpc, hpa, h0, hpn, hpu]
  · intro lastTok hpos hlast
    have hne : s.reading_axes_description ≠ -1 := by omega
    unfold step stepMain axisArm
    simp [h1, h2, h3, hpc, hpa, hpn, hpu, hlast, hpos, hne]

/-- Witness for C4 on the axis line `s Time` at block index 1. -/
theorem c4_axis_block_witness :
    (step { data := {}, first_lines := false, reading_comment := false,
            reading_axes_description := 1, reading_data := false } (strS ("s Time"))).map
        (fun t => (t.data.names, t.data.units, t.reading_axes_description)) =
      some ([] ++ [chRepl ' ' '_' (pyStrip (strS ("Time")))],
            [] ++ [if 10 < (pySplit (strS ("s Time"))).length then
                     pyStrip ((pySplitMax 10 (strS ("s Time"))).getD
                       ((pySplitMax 10 (strS ("s Time"))).length - 2) [])
                   else []],
            1 + 1) :=
  (c4_axis_block
    { data := {}, first_lines := false, reading_comment := false,
      reading_axes_description := 1, reading_data := false } (strS ("s Time"))
    rfl (by decide) (by decide) (by decide)).2 (strS ("Time")) (by decide) (by decide)

/-! ### C5: curve time tag sets the duration -/

theorem splitSepAll_ne_nil (sep : Char) (l : Str) : splitSepAll sep l ≠ [] := by
  intro h
  cases l with
  | nil => simp [splitSepAll] at h
  | cons c cs =>
    unfold splitSepAll at h
    split at h
    · cases h
    · split at h <;> cases h

theorem splitSepAll_no_sep (sep : Char) :
    ∀ (l : Str), (sep ∈ l → False) → splitSepAll sep l = [l]
  | [], _ => rfl
  | c :: cs, h => by
    unfold splitSepAll
    rw [splitSepAll_no_sep sep cs (fun hm => h (List.mem_cons_of_mem c hm))]
    have hcs : (c == sep) = false := by
      rw [beq_eq_false_iff_ne]
      intro hceq
      exact h (hceq ▸ List.mem_cons_self c cs)
    simp [hcs]

theorem splitSepAll_sep_append (sep : Char) :
    ∀ (p : Str), (sep ∈ p → False) → ∀ (t : Str),
      splitSepAll sep (p ++ sep :: t) = p :: splitSepAll sep t
  | [], _, t => by
    show splitSepAll sep (sep :: t) = [] :: splitSepAll sep t
    rw [splitSepAll]
    cases hrec : splitSepAll sep t with
    | nil => exact absurd hrec (splitSepAll_ne_nil sep t)
    | cons r rs => simp
  | c :: p, hp, t => by
    rw [List.cons_append]
    rw [splitSepAll]
    rw [splitSepAll_sep_append sep p (fun hm => hp (List.mem_cons_of_mem c hm)) t]
    have hcs : (c == sep) = false := by
      rw [beq_eq_false_iff_ne]
      intro hceq
      exact hp (hceq ▸ List.mem_cons_self c p)
    simp [hcs]

/-- C5: a `#START Time:` line whose tail after the colon holds two
space-separated clock values (comma decimals allowed, no further colon)
sets the current curve's duration to the second value minus the first. -/
theorem c5_curve_time (s : ParseState) (rest t0 t1 : Str) (a b : Rat)
    (cs : List CurveData) (c : CurveData)
    (hc : s.reading_comment = false)
    (hax : s.reading_axes_description = -1)
    (hcur : s.data.curves = cs ++ [c])
    (hrest : (':' ∈ rest) → False)
    (hsplit : pySplit rest = [t0, t1])
    (h0 : pyFloat (chRepl ',' '.' t0) = some a)
    (h1 : pyFloat (chRepl ',' '.' t1) = some b) :
    ((step s (strS ("#START Time:") ++ rest)).bind
        (fun t => t.data.curves.getLast?)).map CurveData.duration = some (b - a) := by
  have hpc : (stepPre s (strS ("#START Time:") ++ rest)).reading_comment = false :=
    (stepPre_reading_comment _ _).trans hc
  have hpa :
      (stepPre s (strS ("#START Time:") ++ rest)).reading_axes_description = -1 :=
    (stepPre_axes _ _).trans hax
  have hpcur : (stepPre s (strS ("#START Time:") ++ rest)).data.curves = cs ++ [c] :=
    (stepPre_data_curves _ _).trans hcur
  have hsa : splitSepAll ':' (strS ("#START Time:") ++ rest) =
      strS ("#START Time") :: [rest] := by
    rw [show strS ("#START Time:") ++ rest = strS ("#START Time") ++ ':' :: rest from rfl]
    rw [splitSepAll_sep_append ':' (strS ("#START Time")) (by decide) rest]
    rw [splitSepAll_no_sep ':' rest hrest]
  unfold step stepMain timeArm
  simp [show startsWith (strS ("#START Time:") ++ rest) (strS ("#START comment")) = false from
      rfl,
    show startsWith (strS ("#START Time:") ++ rest)
      (strS ("#START axis description")) = false from rfl,
    show startsWith (strS ("#START Time:") ++ rest)
      (strS ("#START Curve description")) = false from rfl,
    show startsWith (strS ("#START Time:") ++ rest) (strS ("#START Date:")) = false from rfl,
    show startsWith (strS ("#START Time:") ++ rest) (strS ("#START Time:")) = true from rfl,
    hpc, hpa, hpcur, hsa, hsplit, h0, h1, setLast, List.getLast?_concat]

/-- Witness for C5: times `10,0 12,5` give duration `2.5`. -/
theorem c5_curve_time_witness :
    ((step { data := { curves := [{}] }, first_lines := false, reading_comment := false,
             reading_axes_description := -1, reading_data := false }
        (strS ("#START Time:") ++ strS (" 10,0 12,5"))).bind
        (fun t => t.data.curves.getLast?)).map CurveData.duration = some (5/2) :=
  (c5_curve_time
    { data := { curves := [{}] }, first_lines := false, reading_comment := false,
      reading_axes_description := -1, reading_data := false }
    (strS (" 10,0 12,5")) (strS ("10,0")) (strS ("12,5")) 10 (25/2) [] {}
    rfl rfl rfl (by decide) (by decide) (by with_unfolding_all decide)
    (by with_unfolding_all decide)).trans (by with_unfolding_all decide)

/-! ### C3: structural invariants of a successful parse -/

theorem mem_of_getLast?_some {α : Type} {l : List α} {a : α}
    (h : l.getLast? = some a) : a ∈ l := by
  obtain ⟨hne, heq⟩ := List.mem_getLast?_eq_getLast (Option.mem_def.mpr h)
  rw [heq]
  exact List.getLast_mem hne

theorem commentArm_curves (s : ParseState) (line : Str) :
    (commentArm s line).data.curves = s.data.curves := by
  unfold commentArm
  split <;> rfl

theorem commentArm_nu (s : ParseState) (line : Str) :
    (commentArm s line).data.names = s.data.names ∧
    (commentArm s line).data.units = s.data.units := by
  unfold commentArm
  split <;> exact ⟨rfl, rfl⟩

theorem axisArm_curves (s : ParseState) (line : Str) (s' : ParseState)
    (h : axisArm s line = some s') : s'.data.curves = s.data.curves := by
  unfold axisArm at h
  repeat' split at h
  all_goals first
    | (injection h with h; subst h; rfl)
    | cases h

theorem axisArm_nu (s : ParseState) (line : Str) (s' : ParseState)
    (h : axisArm s line = some s') :
    (s'.data.names = s.data.names ∧ s'.data.units = s.data.units) ∨
    (∃ nm un, s'.data.names = s.data.names ++ [nm] ∧
      s'.data.units = s.data.units ++ [un]) := by
  unfold axisArm at h
  repeat' split at h
  all_goals first
    | (injection h with h; subst h; exact Or.inl ⟨rfl, rfl⟩)
    | (injection h with h; subst h; exact Or.inr ⟨_, _, rfl, rfl⟩)
    | cases h

theorem curveDescArm_curves (s : ParseState) (line : Str) (s' : ParseState)
    (h : curveDescArm s line = some s') :
    ∃ n, s'.data.curves = s.data.curves ++ [{ curve_number := n }] := by
  unfold curveDescArm at h
  repeat' split at h
  all_goals first
    | (injection h with h; subst h; exact ⟨_, rfl⟩)
    | cases h

theorem curveDescArm_nu (s : ParseState) (line : Str) (s' : ParseState)
    (h : curveDescArm s line = some s') :
    s'.data.names = s.data.names ∧ s'.data.units = s.data.units := by
  unfold curveDescArm at h
  repeat' split at h
  all_goals first
    | (injection h with h; subst h; exact ⟨rfl, rfl⟩)
    | cases h

theorem dateArm_shape (s : ParseState) (line : Str) (s' : ParseState)
    (h : dateArm s line = some s') :
    ∃ c c', s.data.curves.getLast? = some c ∧ c'.data = c.data ∧
      s'.data = setLast s.data c' := by
  unfold dateArm at h
  cases h1 : splitSep1 ':' line with
  | none => exact absurd h (by simp only [h1]; simp)
  | some p =>
    simp only [h1] at h
    cases hg : s.data.curves.getLast? with
    | none => exact absurd h (by simp only [hg]; simp)
    | some c =>
      simp only [hg] at h
      injection h with h
      subst h
      exact ⟨c, { c with start_date := p.2 }, rfl, rfl, rfl⟩

theorem timeArm_shape (s : ParseState) (line : Str) (s' : ParseState)
    (h : timeArm s line = some s') :
    ∃ c c', s.data.curves.getLast? = some c ∧ c'.data = c.data ∧
      s'.data = setLast s.data c' := by
  unfold timeArm at h
  cases h1 : (splitSepAll ':' line).get? 1 with
  | none => exact absurd h (by simp only [h1]; simp)
  | some seg =>
    simp only [h1] at h
    cases h2 : (pySplit seg).get? 1 with
    | none => exact absurd h (by simp only [h2]; simp)
    | some t1 =>
      simp only [h2] at h
      cases h3 : pyFloat (chRepl ',' '.' t1) with
      | none => exact absurd h (by simp only [h3]; simp)
      | some b =>
        simp only [h3] at h
        cases h4 : (pySplit seg).get? 0 with
        | none => exact absurd h (by simp only [h4]; simp)
        | some t0 =>
          simp only [h4] at h
          cases h5 : pyFloat (chRepl ',' '.' t0) with
          | none => exact absurd h (by simp only [h5]; simp)
          | some a =>
            simp only [h5] at h
            cases hg : s.data.curves.getLast? with
            | none => exact absurd h (by simp only [hg]; simp)
            | some c =>
              simp only [hg] at h
              injection h with h
              subst h
              exact ⟨c, { c with duration := b - a }, rfl, rfl, rfl⟩

theorem legendArm_shape (s : ParseState) (line : Str) (s' : ParseState)
    (h : legendArm s line = some s') :
    ∃ c c', s.data.curves.getLast? = some c ∧ c'.data = c.data ∧
      s'.data = setLast s.data c' := by
  unfold legendArm at h
  cases h1 : splitSep1 ':' line with
  | none => exact absurd h (by simp only [h1]; simp)
  | some p =>
    simp only [h1] at h
    cases hg : s.data.curves.getLast? with
    | none => exact absurd h (by simp only [hg]; simp)
    | some c =>
      simp only [hg] at h
      injection h with h
      subst h
      exact ⟨c, { c with key := p.2 }, rfl, rfl, rfl⟩

theorem pointsArm_shape (s : ParseState) (line : Str) (s' : ParseState)
    (h : pointsArm s line = some s') :
    ∃ c c', s.data.curves.getLast? = some c ∧ c'.data = c.data ∧
      s'.data = setLast s.data c' := by
  unfold pointsArm at h
  cases hg : s.data.curves.getLast? with
  | none => exact absurd h (by simp only [hg]; simp)
  | some c =>
    simp only [hg] at h
    cases h1 : (splitSepAll '=' line).get? 1 with
    | none => exact absurd h (by simp only [h1]; simp)
    | some v =>
      simp only [h1] at h
      cases h2 : pyInt v with
      | none => exact absurd h (by simp only [h2]; simp)
      | some p =>
        simp only [h2] at h
        injection h with h
        subst h
        exact ⟨c, { c with points := p }, rfl, rfl, rfl⟩

theorem dateArm_nu (s : ParseState) (line : Str) (s' : ParseState)
    (h : dateArm s line = some s') :
    s'.data.names = s.data.names ∧ s'.data.units = s.data.units := by
  obtain ⟨c, c', _, _, hsd⟩ := dateArm_shape s line s' h
  rw [hsd]
  exact ⟨rfl, rfl⟩

theorem timeArm_nu (s : ParseState) (line : Str) (s' : ParseState)
    (h : timeArm s line = some s') :
    s'.data.names = s.data.names ∧ s'.data.units = s.data.units := by
  obtain ⟨c, c', _, _, hsd⟩ := timeArm_shape s line s' h
  rw [hsd]
  exact ⟨rfl, rfl⟩

theorem legendArm_nu (s : ParseState) (line : Str) (s' : ParseState)
    (h : legendArm s line = some s') :
    s'.data.names = s.data.names ∧ s'.data.units = s.data.units := by
  obtain ⟨c, c', _, _, hsd⟩ := legendArm_shape s line s' h
  rw [hsd]
  exact ⟨rfl, rfl⟩

theorem pointsArm_nu (s : ParseState) (line : Str) (s' : ParseState)
    (h : pointsArm s line = some s') :
    s'.data.names = s.data.names ∧ s'.data.units = s.data.units := by
  obtain ⟨c, c', _, _, hsd⟩ := pointsArm_shape s line s' h
  rw [hsd]
  exact ⟨rfl, rfl⟩

theorem dataArm_nu (s : ParseState) (line : Str) (s' : ParseState)
    (h : dataArm s line = some s') :
    s'.data.names = s.data.names ∧ s'.data.units = s.data.units := by
  unfold dataArm at h
  repeat' split at h
  all_goals first
    | (injection h with h; subst h; exact ⟨rfl, rfl⟩)
    | cases h

set_option maxHeartbeats 1000000 in
theorem stepMain_nu (s : ParseState) (line : Str) (s' : ParseState)
    (h : stepMain s line = some s') :
    (s'.data.names = s.data.names ∧ s'.data.units = s.data.units) ∨
    (∃ nm un, s'.data.names = s.data.names ++ [nm] ∧
      s'.data.units = s.data.units ++ [un]) := by
  unfold stepMain at h
  repeat' split at h
  all_goals first
    | (injection h with h; subst h; exact Or.inl ⟨rfl, rfl⟩)
    | (injection h with h; subst h; exact Or.inl (commentArm_nu s line))
    | cases h
    | exact Or.inl (curveDescArm_nu s line s' h)
    | exact Or.inl (dateArm_nu s line s' h)
    | exact Or.inl (timeArm_nu s line s' h)
    | exact Or.inl (legendArm_nu s line s' h)
    | exact Or.inl (pointsArm_nu s line s' h)
    | exact Or.inl (dataArm_nu s line s' h)
    | exact axisArm_nu s line s' h

theorem step_len (s : ParseState) (line : Str) (s' : ParseState)
    (h : step s line = some s')
    (hlen : s.data.names.length = s.data.units.length) :
    s'.data.names.length = s'.data.units.length := by
  unfold step at h
  have hn := stepPre_data_names s line
  have hu := stepPre_data_units s line
  rcases stepMain_nu _ line s' h with ⟨h1, h2⟩ | ⟨nm, un, h1, h2⟩
  · rw [h1, h2, hn, hu]
    exact hlen
  · rw [h1, h2, hn, hu]
    simp [hlen]

theorem runLines_len :
    ∀ (ls : List Str) (s s' : ParseState),
      runLines s ls = some s' → s.data.names.length = s.data.units.length →
      s'.data.names.length = s'.data.units.length
  | [], s, s', h, hlen => by
    unfold runLines at h
    injection h with h
    subst h
    exact hlen
  | l :: ls, s, s', h, hlen => by
    unfold runLines at h
    cases hstep : step s l with
    | none => rw [hstep] at h; cases h
    | some smid =>
      rw [hstep] at h
      exact runLines_len ls smid s' h (step_len s l smid hstep hlen)

theorem rows_setLast (gd : GraphData) (c c' : CurveData) (N : Nat)
    (_hg : gd.curves.getLast? = some c)
    (hdata : ∀ r ∈ c'.data, r.length = N)
    (hP : ∀ x ∈ gd.curves, ∀ r ∈ x.data, r.length = N) :
    ∀ x ∈ (setLast gd c').curves, ∀ r ∈ x.data, r.length = N := by
  intro x hx r hr
  rcases List.mem_append.mp hx with hx1 | hx2
  · exact hP x (List.dropLast_subset _ hx1) r hr
  · have hxc : x = c' := by simpa using hx2
    subst hxc
    exact hdata r hr

theorem parseRow_length (line : Str) (row : List Rat)
    (h : parseRow line = some row) : row.length = (pySplit line).length :=
  optMap_length _ _ _ h

theorem dataArm_rows (s : ParseState) (line : Str) (s' : ParseState) (N : Nat)
    (h : dataArm s line = some s')
    (hrow : dataRowGuard s line = true → (pySplit line).length = N)
    (hP : ∀ c ∈ s.data.curves, ∀ r ∈ c.data, r.length = N) :
    ∀ c ∈ s'.data.curves, ∀ r ∈ c.data, r.length = N := by
  unfold dataArm at h
  cases hg : s.data.curves.getLast? with
  | none => exact absurd h (by simp only [hg]; simp)
  | some c =>
    simp only [hg] at h
    by_cases hguard : (c.curve_number != 0 && startsWith line
        (strS ("#END Curve ") ++ intRepr c.curve_number ++ strS (" -"))) = true
    · rw [if_pos hguard] at h
      injection h with h
      subst h
      exact hP
    · rw [if_neg hguard] at h
      have hgf : (c.curve_number != 0 && startsWith line
          (strS ("#END Curve ") ++ intRepr c.curve_number ++ strS (" -"))) = false := by
        cases hb : (c.curve_number != 0 && startsWith line
            (strS ("#END Curve ") ++ intRepr c.curve_number ++ strS (" -")))
        · rfl
        · exact absurd hb hguard
      have hN : (pySplit line).length = N := by
        apply hrow
        unfold dataRowGuard
        rw [hg]
        show (!(c.curve_number != 0 && startsWith line
            (strS ("#END Curve ") ++ intRepr c.curve_number ++ strS (" -")))) = true
        rw [hgf]
        rfl
      cases hrowq : parseRow line with
      | none => rw [hrowq] at h; cases h
      | some row =>
        simp only [hrowq] at h
        have hrlen : row.length = N := (parseRow_length line row hrowq).trans hN
        cases hcd : c.data with
        | nil =>
          simp only [hcd] at h
          by_cases hre : row.isEmpty = true
          · rw [if_pos hre] at h
            injection h with h
            subst h
            exact hP
          · rw [if_neg hre] at h
            injection h with h
            subst h
            refine rows_setLast s.data c _ N hg ?_ hP
            intro r hr
            have hrr : r = row := by simpa using hr
            subst hrr
            exact hrlen
        | cons r0 rest =>
          simp only [hcd] at h
          by_cases hl2 : (row.length == r0.length) = true
          · rw [if_pos hl2] at h
            injection h with h
            subst h
            refine rows_setLast s.data c _ N hg ?_ hP
            intro r hr
            rcases List.mem_append.mp hr with hr1 | hr2
            · exact hP c (mem_of_getLast?_some hg) r (by rw [hcd]; exact hr1)
            · have hrr : r = row := by simpa using hr2
              subst hrr
              exact hrlen
          · rw [if_neg hl2] at h
            cases h

theorem stepMain_rows (s : ParseState) (line : Str) (s' : ParseState) (N : Nat)
    (h : stepMain s line = some s')
    (hrow : rowLine s line = true → (pySplit line).length = N)
    (hP : ∀ c ∈ s.data.curves, ∀ r ∈ c.data, r.length = N) :
    ∀ c ∈ s'.data.curves, ∀ r ∈ c.data, r.length = N := by
  unfold stepMain at h
  by_cases h1 : startsWith line (strS ("#START comment")) = true
  · rw [if_pos h1] at h
    injection h with h
    subst h
    exact hP
  rw [if_neg h1] at h
  by_cases h2 : s.reading_comment = true
  · rw [if_pos h2] at h
    injection h with h
    subst h
    intro c hc
    rw [commentArm_curves s line] at hc
    exact hP c hc
  rw [if_neg h2] at h
  by_cases h3 : startsWith line (strS ("#START axis description")) = true
  · rw [if_pos h3] at h
    injection h with h
    subst h
    exact hP
  rw [if_neg h3] at h
  by_cases h4 : s.reading_axes_description ≠ -1
  · rw [if_pos h4] at h
    intro c hc
    rw [axisArm_curves s line s' h] at hc
    exact hP c hc
  rw [if_neg h4] at h
  by_cases h5 : startsWith line (strS ("#START Curve description")) = true
  · rw [if_pos h5] at h
    obtain ⟨n, hcur⟩ := curveDescArm_curves s line s' h
    intro c hc
    rw [hcur] at hc
    rcases List.mem_append.mp hc with hc1 | hc2
    · exact hP c hc1
    · have hcn : c = { curve_number := n } := by simpa using hc2
      subst hcn
      intro r hr
      cases hr
  rw [if_neg h5] at h
  by_cases h6 : startsWith line (strS ("#START Date:")) = true
  · rw [if_pos h6] at h
    obtain ⟨c0, c0', hg, hd, hsd⟩ := dateArm_shape s line s' h
    intro c hc
    rw [hsd] at hc
    exact rows_setLast s.data c0 c0' N hg
      (fun r hr => hP c0 (mem_of_getLast?_some hg) r (hd ▸ hr)) hP c hc
  rw [if_neg h6] at h
  by_cases h7 : startsWith line (strS ("#START Time:")) = true
  · rw [if_pos h7] at h
    obtain ⟨c0, c0', hg, hd, hsd⟩ := timeArm_shape s line s' h
    intro c hc
    rw [hsd] at hc
    exact rows_setLast s.data c0 c0' N hg
      (fun r hr => hP c0 (mem_of_getLast?_some hg) r (hd ▸ hr)) hP c hc
  rw [if_neg h7] at h
  by_cases h8 : startsWith line (strS ("#START Curve Legend ")) = true
  · rw [if_pos h8] at h
    obtain ⟨c0, c0', hg, hd, hsd⟩ := legendArm_shape s line s' h
    intro c hc
    rw [hsd] at hc
    exact rows_setLast s.data c0 c0' N hg
      (fun r hr => hP c0 (mem_of_getLast?_some hg) r (hd ▸ hr)) hP c hc
  rw [if_neg h8] at h
  by_cases h9 : pointsGuard s line = true
  · rw [if_pos h9] at h
    obtain ⟨c0, c0', hg, hd, hsd⟩ := pointsArm_shape s line s' h
    intro c hc
    rw [hsd] at hc
    exact rows_setLast s.data c0 c0' N hg
      (fun r hr => hP c0 (mem_of_getLast?_some hg) r (hd ▸ hr)) hP c hc
  rw [if_neg h9] at h
  by_cases h10 : startsWith line (strS ("#START Curve Data")) = true
  · rw [if_pos h10] at h
    injection h with h
    subst h
    exact hP
  rw [if_neg h10] at h
  by_cases h11 : s.reading_data = true
  · rw [if_pos h11] at h
    refine dataArm_rows s line s' N h ?_ hP
    intro hguard
    apply hrow
    have e1 : startsWith line (strS ("#START comment")) = false := (Bool.not_eq_true _) ▸ h1
    have e3 : startsWith line (strS ("#START axis description")) = false :=
      (Bool.not_eq_true _) ▸ h3
    have e4 : s.reading_axes_description = -1 := not_not.mp h4
    have e5 : startsWith line (strS ("#START Curve description")) = false :=
      (Bool.not_eq_true _) ▸ h5
    have e6 : startsWith line (strS ("#START Date:")) = false := (Bool.not_eq_true _) ▸ h6
    have e7 : startsWith line (strS ("#START Time:")) = false := (Bool.not_eq_true _) ▸ h7
    have e8 : startsWith line (strS ("#START Curve Legend ")) = false :=
      (Bool.not_eq_true _) ▸ h8
    have e9 : pointsGuard s line = false := (Bool.not_eq_true _) ▸ h9
    have e10 : startsWith line (strS ("#START Curve Data")) = false :=
      (Bool.not_eq_true _) ▸ h10
    have e2 : s.reading_comment = false := (Bool.not_eq_true _) ▸ h2
    unfold rowLine
    simp [e1, e2, e3, e4, e5, e6, e7, e8, e9, e10, h11, hguard]
  rw [if_neg h11] at h
  injection h with h
  subst h
  exact hP

theorem pointsGuard_stepPre (s : ParseState) (line : Str) :
    pointsGuard (stepPre s line) line = pointsGuard s line := by
  unfold pointsGuard
  rw [stepPre_data_curves]

theorem dataRowGuard_stepPre (s : ParseState) (line : Str) :
    dataRowGuard (stepPre s line) line = dataRowGuard s line := by
  unfold dataRowGuard
  rw [stepPre_data_curves]

theorem rowLine_stepPre (s : ParseState) (line : Str) :
    rowLine (stepPre s line) line = rowLine s line := by
  unfold rowLine
  rw [stepPre_reading_comment, stepPre_axes, stepPre_reading_data, pointsGuard_stepPre,
    dataRowGuard_stepPre]

theorem step_rows (s : ParseState) (line : Str) (smid : ParseState) (N : Nat)
    (h : step s line = some smid)
    (hrow : rowLine s line = true → (pySplit line).length = N)
    (hP : ∀ c ∈ s.data.curves, ∀ r ∈ c.data, r.length = N) :
    ∀ c ∈ smid.data.curves, ∀ r ∈ c.data, r.length = N := by
  unfold step at h
  apply stepMain_rows (stepPre s line) line smid N h
  · rw [rowLine_stepPre]
    exact hrow
  · rw [stepPre_data_curves]
    exact hP

theorem runLines_rows :
    ∀ (ls : List Str) (s s' : ParseState) (N : Nat),
      runLines s ls = some s' → goodTrace N s ls = true →
      (∀ c ∈ s.data.curves, ∀ r ∈ c.data, r.length = N) →
      ∀ c ∈ s'.data.curves, ∀ r ∈ c.data, r.length = N
  | [], s, s', N, h, _, hP => by
    unfold runLines at h
    injection h with h
    subst h
    exact hP
  | l :: ls, s, s', N, h, hg, hP => by
    unfold runLines at h
    cases hstep : step s l with
    | none => rw [hstep] at h; cases h
    | some smid =>
      rw [hstep] at h
      unfold goodTrace at hg
      rw [hstep] at hg
      rw [Bool.and_eq_true] at hg
      obtain ⟨hg1, hg2⟩ := hg
      have hrowc : rowLine s l = true → (pySplit l).length = N := by
        intro hr
        rw [hr] at hg1
        simpa using hg1
      exact runLines_rows ls smid s' N h hg2 (step_rows s l smid N hstep hrowc hP)

/-- C3: every successful parse satisfies `len(names) == len(units)`; and on
a well-formed run — every line consumed as a curve-data row carries exactly
`len(names)` whitespace-separated tokens — every curve's data rows all have
exactly `len(names)` entries (so every non-empty data matrix has
`len(names)` columns). -/
theorem c3_invariants (lines : List Str) (gd : GraphData)
    (h : read_grd lines = some gd) :
    gd.names.length = gd.units.length ∧
    (goodTrace gd.names.length initState lines = true →
      ∀ c ∈ gd.curves, ∀ r ∈ c.data, r.length = gd.names.length) := by
  unfold read_grd at h
  cases hrun : runLines initState lines with
  | none => rw [hrun] at h; cases h
  | some sfin =>
    rw [hrun] at h
    injection h with h
    subst h
    constructor
    · exact runLines_len lines initState sfin hrun rfl
    · intro hgt
      exact runLines_rows lines initState sfin sfin.data.names.length hrun hgt
        (fun c hc => absurd hc (List.not_mem_nil c))

/-- Witness for C3 on the minimal file. -/
theorem c3_invariants_witness :
    c1Result.names.length = c1Result.units.length ∧
    (∀ c ∈ c1Result.curves, ∀ r ∈ c.data, r.length = c1Result.names.length) := by
  have h := c3_invariants c1File c1Result (by with_unfolding_all decide)
  exact ⟨h.1, h.2 (by with_unfolding_all decide)⟩
